import Mathlib

/-
Verification of the responsive sidebar visibility coordinator documented in
REUSABLE-REACT-COMPONENTS-GUIDELINES.md (the SidebarProvider / useSidebar /
toggleSidebar / SidebarMenuButton pattern).

Shallow embedding notes:
* React component state (the two useState slots `_open` and `openMobile`) is
  modelled as fields of an explicit record `SidebarState`, mutated by pure
  transition functions.
* The `setOpen` callback in the source is created with
  `React.useCallback(..., [setOpenProp, open])`: a functional updater is
  resolved against the render-scoped variable `open = openProp ?? _open`
  captured when the callback was created, not against pending state.  The
  field `capturedOpen` models that captured value; `rerender` models a React
  commit, which recreates the callback with the then-current `open`.
* `document.cookie = SIDEBAR_COOKIE_NAME=openState; ...` is modelled by the
  `cookie` field (last write wins) plus `cookieWrites`, the log of every
  persistence write performed.
* Calls to the external `onOpenChange` handler are logged in `onChangeCalls`.
* `useIsMobile` is modelled by the `isMobile` field; the detector updating it
  is a record update.
-/

namespace Sidebar

/-- Derived sidebar mode: `"expanded" | "collapsed"` in the source. -/
inductive SidebarMode where
  | expanded
  | collapsed
deriving DecidableEq, Repr

/-- The state of one `SidebarProvider` instance together with its observable
environment: the two `useState` slots, the current controlled prop, whether an
`onOpenChange` handler was supplied, the mobile flag from `useIsMobile`, the
`open` value captured by the `setOpen` `useCallback` closure at the last
render, the log of calls made to the external handler, and the cookie store
with its write log. -/
structure SidebarState where
  hasOnOpenChange : Bool
  openProp : Option Bool
  internalOpen : Bool
  openMobile : Bool
  isMobile : Bool
  capturedOpen : Bool
  onChangeCalls : List Bool
  cookie : Option Bool
  cookieWrites : List Bool
deriving DecidableEq, Repr

/-- The source's `const open = openProp ?? _open`. -/
def openValue (s : SidebarState) : Bool :=
  s.openProp.getD s.internalOpen

/-- Argument accepted by `setOpen`: `boolean | ((value: boolean) => boolean)`. -/
inductive SetOpenValue where
  | val (b : Bool)
  | updater (f : Bool → Bool)

/-- The source's `typeof value === "function" ? value(open) : value`. -/
def resolveSetOpen (v : SetOpenValue) (prev : Bool) : Bool :=
  match v with
  | .val b => b
  | .updater f => f prev

/-- The `setOpen` callback from the State Persistence section of the source
(the fullest version): resolve the argument against the captured `open`,
then either call the external `onOpenChange` (controlled) or set internal
state (uncontrolled), then write the resolved value to the cookie. -/
def setOpen (v : SetOpenValue) (s : SidebarState) : SidebarState :=
  let openState := resolveSetOpen v s.capturedOpen
  let s1 :=
    if s.hasOnOpenChange then
      { s with onChangeCalls := s.onChangeCalls ++ [openState] }
    else
      { s with internalOpen := openState }
  { s1 with cookie := some openState, cookieWrites := s1.cookieWrites ++ [openState] }

/-- The raw React mobile setter `setOpenMobile` used with a functional
updater; a plain `useState` setter resolves against the latest state and
performs no persistence write. -/
def setOpenMobile (f : Bool → Bool) (s : SidebarState) : SidebarState :=
  { s with openMobile := f s.openMobile }

/-- The source's `toggleSidebar`:
`isMobile ? setOpenMobile((open) => !open) : setOpen((open) => !open)`. -/
def toggleSidebar (s : SidebarState) : SidebarState :=
  if s.isMobile then setOpenMobile (fun o => !o) s
  else setOpen (.updater (fun o => !o)) s

/-- A React commit / re-render: the `setOpen` callback is recreated and the
closure captures the current `open = openProp ?? _open`. -/
def rerender (s : SidebarState) : SidebarState :=
  { s with capturedOpen := openValue s }

/-- The external owner of a controlled provider re-rendering it with a new
value for the `open` prop. -/
def updateControlledProp (b : Bool) (s : SidebarState) : SidebarState :=
  { s with openProp := some b }

/-- One `toggleSidebar` call followed by a React commit. -/
def toggleTurn (s : SidebarState) : SidebarState :=
  rerender (toggleSidebar s)

/-- Error carried by the one `throw` in the source and by the spec's
`ConfigurationError` taxonomy. -/
structure ConfigurationError where
  message : String
deriving DecidableEq, Repr

/-- The construction of `SidebarProvider` state:
`const [_open, _setOpen] = React.useState(defaultOpen)` with
`defaultOpen = true` as the default parameter,
`const [openMobile, setOpenMobile] = useState(false)`,
and `open = openProp ?? _open` captured by the initial `setOpen` closure.
The cookie store is carried but never read at construction. -/
def initialState (defaultOpen : Option Bool) (openProp : Option Bool)
    (hasOnOpenChange : Bool) (isMobile : Bool) (cookie : Option Bool) :
    SidebarState :=
  let d := defaultOpen.getD true
  { hasOnOpenChange := hasOnOpenChange
    openProp := openProp
    internalOpen := d
    openMobile := false
    isMobile := isMobile
    capturedOpen := openProp.getD d
    onChangeCalls := []
    cookie := cookie
    cookieWrites := [] }

/-- `SidebarProvider` construction embedded into an error monad.  The source
component body performs no validation of its prop combinations — there is no
`throw` in `SidebarProvider` — so every configuration constructs
successfully; embedding into `Except` makes that explicit. -/
def SidebarProvider (defaultOpen : Option Bool) (openProp : Option Bool)
    (hasOnOpenChange : Bool) (isMobile : Bool) (cookie : Option Bool) :
    Except ConfigurationError SidebarState :=
  .ok (initialState defaultOpen openProp hasOnOpenChange isMobile cookie)

/-- The value object published through `SidebarContext` (data fields of
`SidebarContextProps`; the function members `setOpen`/`toggleSidebar` are
modelled by the top-level transition functions of this file). -/
structure SidebarContextProps where
  state : SidebarMode
  openVal : Bool
  openMobile : Bool
  isMobile : Bool
deriving DecidableEq, Repr

/-- The `useMemo` context value: `state: open ? "expanded" : "collapsed"`
plus the raw flags. -/
def contextValue (s : SidebarState) : SidebarContextProps :=
  { state := if openValue s then .expanded else .collapsed
    openVal := openValue s
    openMobile := s.openMobile
    isMobile := s.isMobile }

/-- The source's `useSidebar` hook: `React.useContext(SidebarContext)`
returns `null` outside any provider, in which case the hook throws. -/
def useSidebar (ctx : Option SidebarContextProps) :
    Except ConfigurationError SidebarContextProps :=
  match ctx with
  | none => .error ⟨"useSidebar must be used within a SidebarProvider."⟩
  | some c => .ok c

/-- The tooltip gate in `SidebarMenuButton`:
`if (!tooltip || state !== "collapsed" || isMobile) return button` (no
tooltip wrapper); the tooltip is rendered exactly when that guard is false. -/
def sidebarMenuButtonShowsTooltip (hasTooltip : Bool) (state : SidebarMode)
    (isMobile : Bool) : Bool :=
  !(!hasTooltip || decide (state ≠ SidebarMode.collapsed) || isMobile)

/-- The spec's `TooltipSuppressionPolicy` signature applied to the source
gate with a tooltip configured.  `SidebarMenuButton` does not consult the
compact flag beyond `isMobile` and `state`, so the first argument is unused
by the decision. -/
def shouldShowAuxiliaryHint (_isCompact : Bool) (derivedMode : SidebarMode)
    (isMobile : Bool) : Bool :=
  sidebarMenuButtonShowsTooltip true derivedMode isMobile

/-- The source cookie write `document.cookie = ...`: last write wins on the
backing store. -/
def writeCookie (b : Bool) (_st : Option Bool) : Option Bool :=
  some b

/-- Following the spec's words (§3 Lifecycle), for comparison with the
source's `initialState`: the initial value is resolved as the externally
supplied controlled value, else a previously persisted value, else the
caller-supplied default. -/
def specInitialOpen (controlledValue : Option Bool) (persisted : Option Bool)
    (defaultOpen : Bool) : Bool :=
  controlledValue.getD (persisted.getD defaultOpen)

/-- The glossary's authoritative slot: whichever of `open`/`openMobile` is
currently read/written by `toggleSidebar`, selected by the compact flag. -/
def authoritativeOpen (s : SidebarState) : Bool :=
  if s.isMobile then s.openMobile else openValue s

/-- One externally triggered operation on a live provider: a `setOpen` call,
a raw `setOpenMobile` call (the mobile `Sheet` uses it directly), a
`toggleSidebar` call, or a React commit. -/
inductive CallOp where
  | callSetOpen (v : SetOpenValue)
  | callSetOpenMobile (f : Bool → Bool)
  | callToggle
  | commit

/-- Apply one operation to the provider state. -/
def applyCall : CallOp → SidebarState → SidebarState
  | .callSetOpen v, s => setOpen v s
  | .callSetOpenMobile f, s => setOpenMobile f s
  | .callToggle, s => toggleSidebar s
  | .commit, s => rerender s

/-- Run a sequence of operations left to right. -/
def runCalls : List CallOp → SidebarState → SidebarState
  | [], s => s
  | op :: rest, s => runCalls rest (applyCall op s)

/-- Number of persistence writes a sequence of operations performs, given the
(fixed) mobile flag: one per `setOpen` call, one per `toggleSidebar` call on
desktop, none for mobile operations or commits. -/
def writeCount (mobile : Bool) : List CallOp → Nat
  | [] => 0
  | .callSetOpen _ :: rest => writeCount mobile rest + 1
  | .callSetOpenMobile _ :: rest => writeCount mobile rest
  | .callToggle :: rest => writeCount mobile rest + (if mobile then 0 else 1)
  | .commit :: rest => writeCount mobile rest

/-- A well-behaved external owner of a controlled provider: it feeds the
value of the latest `onOpenChange` call back into the `open` prop — in the
source's words, the external owner "is expected to feed the new value back in
on its next render/update cycle". -/
def echoOwner (s : SidebarState) : SidebarState :=
  match s.onChangeCalls.getLast? with
  | some b => updateControlledProp b s
  | none => s

/-- One `toggleSidebar` call on a provider whose controlled owner echoes the
change back, followed by a React commit. -/
def toggleEchoTurn (s : SidebarState) : SidebarState :=
  rerender (echoOwner (toggleSidebar s))

end Sidebar

open Sidebar

/-- C10: at construction `openMobile` comes from `useState(false)` for every
combination of `defaultOpen`, controlled props, mobile flag and persisted
cookie; only the desktop slot's initial value is configurable. -/
theorem c10_openMobile_initially_false (d op : Option Bool) (h m : Bool)
    (ck : Option Bool) :
    (initialState d op h m ck).openMobile = false := by
  rfl

/-- C6: reading the context with zero active providers in scope yields the
`ConfigurationError` with the source's message rather than any value, and
with an active provider the read succeeds with the published snapshot. -/
theorem c6_useSidebar_requires_provider :
    useSidebar none =
      .error ⟨"useSidebar must be used within a SidebarProvider."⟩ ∧
    ∀ c : SidebarContextProps, useSidebar (some c) = .ok c := by
  exact ⟨rfl, fun c => rfl⟩

/-- C9: the tooltip-suppression policy returns true exactly when the consumer
is not mobile and the derived mode is collapsed; in particular it is true at
(isCompact = true, collapsed, isMobile = false), false whenever mobile, and
false whenever expanded. -/
theorem c9_shouldShowAuxiliaryHint_spec :
    (∀ (c : Bool) (m : SidebarMode) (mo : Bool),
      shouldShowAuxiliaryHint c m mo = true ↔
        (mo = false ∧ m = SidebarMode.collapsed)) ∧
    shouldShowAuxiliaryHint true SidebarMode.collapsed false = true ∧
    (∀ (c : Bool) (m : SidebarMode), shouldShowAuxiliaryHint c m true = false) ∧
    (∀ (c mo : Bool), shouldShowAuxiliaryHint c SidebarMode.expanded mo = false) := by
  refine ⟨?_, rfl, ?_, ?_⟩
  · intro c m mo
    cases m <;> cases mo <;>
      simp [shouldShowAuxiliaryHint, sidebarMenuButtonShowsTooltip]
  · intro c m
    cases m <;> rfl
  · intro c mo
    cases mo <;> rfl

/-- C1 counterexample: in uncontrolled ownership, `setOpen(prev => !prev)`
called twice in immediate succession (no re-render and no external update
between the calls) does NOT return the desktop open value to its original
value: starting from `open = true`, both updaters resolve against the same
captured value `true` and the state ends at `false`. -/
theorem c1_double_toggle_not_roundtrip :
    openValue
        { hasOnOpenChange := false, openProp := none, internalOpen := true,
          openMobile := false, isMobile := false, capturedOpen := true,
          onChangeCalls := [], cookie := none, cookieWrites := [] } = true ∧
    openValue
        (setOpen (.updater (fun o => !o))
          (setOpen (.updater (fun o => !o))
            { hasOnOpenChange := false, openProp := none, internalOpen := true,
              openMobile := false, isMobile := false, capturedOpen := true,
              onChangeCalls := [], cookie := none, cookieWrites := [] })) =
      false := by
  exact ⟨rfl, rfl⟩

/-- C1 amended: in uncontrolled ownership, `setOpen(prev => !prev)` called
twice WITH a React commit between the calls returns the desktop open value to
its original value; each functional updater is resolved against the `open`
value captured when the `setOpen` callback was created at the last render,
so without an intervening commit both calls resolve against the same value
and the round trip fails. -/
theorem c1_toggle_roundtrip_across_commits (b mob mo : Bool)
    (log cw : List Bool) (ck : Option Bool) :
    openValue
        (setOpen (.updater (fun o => !o))
          (rerender
            (setOpen (.updater (fun o => !o))
              { hasOnOpenChange := false, openProp := none, internalOpen := b,
                openMobile := mob, isMobile := mo, capturedOpen := b,
                onChangeCalls := log, cookie := ck, cookieWrites := cw }))) =
      b := by
  cases b <;> rfl

/-- C2: in controlled ownership (an `onOpenChange` handler supplied and the
`open` prop present), `setOpen(true)` appends exactly one call with the
resolved value `true` to the external handler's call log, leaves the internal
desktop slot untouched, leaves the observed value at the controlled prop, and
the next observed value after the owner feeds a value back is exactly that
value. -/
theorem c2_controlled_setOpen (c b0 mob mo cap : Bool)
    (log cw : List Bool) (ck : Option Bool) :
    (setOpen (.val true)
        { hasOnOpenChange := true, openProp := some c, internalOpen := b0,
          openMobile := mob, isMobile := mo, capturedOpen := cap,
          onChangeCalls := log, cookie := ck, cookieWrites := cw }).onChangeCalls =
      log ++ [true] ∧
    (setOpen (.val true)
        { hasOnOpenChange := true, openProp := some c, internalOpen := b0,
          openMobile := mob, isMobile := mo, capturedOpen := cap,
          onChangeCalls := log, cookie := ck, cookieWrites := cw }).internalOpen =
      b0 ∧
    openValue
        (setOpen (.val true)
          { hasOnOpenChange := true, openProp := some c, internalOpen := b0,
            openMobile := mob, isMobile := mo, capturedOpen := cap,
            onChangeCalls := log, cookie := ck, cookieWrites := cw }) = c ∧
    ∀ fed : Bool,
      openValue
          (rerender (updateControlledProp fed
            (setOpen (.val true)
              { hasOnOpenChange := true, openProp := some c, internalOpen := b0,
                openMobile := mob, isMobile := mo, capturedOpen := cap,
                onChangeCalls := log, cookie := ck, cookieWrites := cw }))) =
        fed := by
  refine ⟨rfl, rfl, rfl, fun fed => rfl⟩

/-- C3 counterexample: the initial value is NOT resolved as controlled value,
else persisted value, else caller default.  With no controlled value, a
persisted `false`, and the implicit default `true`, the source yields initial
`open = true` (the cookie is never read at construction) while the spec's
resolution yields `false`. -/
theorem c3_persisted_value_not_read :
    openValue (initialState none none false false (some false)) = true ∧
    specInitialOpen none (some false) true = false := by
  exact ⟨rfl, rfl⟩

/-- C3 amended: after a persistence write of `true`, a fresh uncontrolled
provider with no explicit `defaultOpen` override yields initial
`open = true` — but because `defaultOpen` defaults to `true`, not because the
persisted value is consulted: the source resolves the initial value as the
controlled `open` prop, else the caller default, and never reads the cookie
at construction. -/
theorem c3_initial_open_ignores_cookie (st : Option Bool) (h m : Bool) :
    openValue (initialState none none h m (writeCookie true st)) = true ∧
    ∀ (d op ck : Option Bool),
      openValue (initialState d op h m ck) = op.getD (d.getD true) := by
  refine ⟨rfl, fun d op ck => ?_⟩
  cases op <;> rfl

/-- C4 counterexample: constructing a provider with a controlled value but no
change handler, and with a change handler but no controlled value, both
succeed — no `ConfigurationError` is raised for partial control, before or
after state is committed. -/
theorem c4_partial_control_accepted :
    (SidebarProvider none (some true) false false none).isOk = true ∧
    (SidebarProvider none none true false none).isOk = true := by
  exact ⟨rfl, rfl⟩

/-- C4 amended: constructing a provider never fails: the source performs no
validation of its prop combinations, so a controlled value without a change
handler (and vice versa) is accepted silently rather than rejected with
`ConfigurationError`. -/
theorem c4_construction_total (d op ck : Option Bool) (h m : Bool) :
    (SidebarProvider d op h m ck).isOk = true := by
  rfl

/-- Parity of a successor, phrased on the Booleans used in the statements. -/
lemma parity_succ_flip (n : Nat) : ((n + 1) % 2 == 1) = !(n % 2 == 1) := by
  rw [Nat.add_mod]
  rcases Nat.mod_two_eq_zero_or_one n with h | h <;> rw [h] <;> rfl

/-- Negating the second argument negates an exclusive or. -/
lemma xor_not_flip (a b : Bool) : Bool.xor a (!b) = !(Bool.xor a b) := by
  cases a <;> cases b <;> rfl

/-- On mobile, one toggle turn flips `openMobile` and commits. -/
lemma toggleTurn_mobile_step (s : SidebarState) (h : s.isMobile = true) :
    toggleTurn s = rerender { s with openMobile := !s.openMobile } := by
  simp [toggleTurn, toggleSidebar, h, setOpenMobile]

/-- Iterated toggle turns on mobile: every field other than `openMobile` and
the captured closure value is preserved, and `openMobile` follows the parity
of the number of toggles. -/
lemma toggleTurn_iter_mobile (s : SidebarState) (h : s.isMobile = true)
    (n : Nat) :
    (toggleTurn^[n] s).hasOnOpenChange = s.hasOnOpenChange ∧
    (toggleTurn^[n] s).openProp = s.openProp ∧
    (toggleTurn^[n] s).internalOpen = s.internalOpen ∧
    (toggleTurn^[n] s).isMobile = true ∧
    (toggleTurn^[n] s).cookie = s.cookie ∧
    (toggleTurn^[n] s).cookieWrites = s.cookieWrites ∧
    (toggleTurn^[n] s).openMobile = Bool.xor s.openMobile (n % 2 == 1) := by
  induction n with
  | zero => simp [h]
  | succ n ih =>
    obtain ⟨i1, i2, i3, i4, i5, i6, i7⟩ := ih
    rw [Function.iterate_succ_apply', toggleTurn_mobile_step _ i4]
    refine ⟨by simp [rerender, i1], by simp [rerender, i2], by simp [rerender, i3],
      by simp [rerender, i4], by simp [rerender, i5], by simp [rerender, i6], ?_⟩
    simp [rerender, i7, parity_succ_flip, xor_not_flip]

/-- On desktop in uncontrolled ownership, starting from a committed state,
one toggle turn negates the internal open slot and recommits. -/
lemma toggleTurn_desktop_step (s : SidebarState)
    (hm : s.isMobile = false) (hc : s.hasOnOpenChange = false)
    (hp : s.openProp = none) (hcap : s.capturedOpen = s.internalOpen) :
    (toggleTurn s).isMobile = false ∧
    (toggleTurn s).hasOnOpenChange = false ∧
    (toggleTurn s).openProp = none ∧
    (toggleTurn s).capturedOpen = (toggleTurn s).internalOpen ∧
    (toggleTurn s).internalOpen = !s.internalOpen ∧
    (toggleTurn s).openMobile = s.openMobile := by
  simp [toggleTurn, toggleSidebar, hm, setOpen, resolveSetOpen, hc, rerender,
    openValue, hp, hcap]

/-- Iterated toggle turns on an uncontrolled desktop provider follow the
parity of the number of toggles on the internal open slot. -/
lemma toggleTurn_iter_desktop (s : SidebarState)
    (hm : s.isMobile = false) (hc : s.hasOnOpenChange = false)
    (hp : s.openProp = none) (hcap : s.capturedOpen = s.internalOpen)
    (n : Nat) :
    (toggleTurn^[n] s).isMobile = false ∧
    (toggleTurn^[n] s).hasOnOpenChange = false ∧
    (toggleTurn^[n] s).openProp = none ∧
    (toggleTurn^[n] s).capturedOpen = (toggleTurn^[n] s).internalOpen ∧
    (toggleTurn^[n] s).internalOpen = Bool.xor s.internalOpen (n % 2 == 1) ∧
    (toggleTurn^[n] s).openMobile = s.openMobile := by
  induction n with
  | zero => simp [hm, hc, hp, hcap]
  | succ n ih =>
    obtain ⟨i1, i2, i3, i4, i5, i6⟩ := ih
    rw [Function.iterate_succ_apply']
    obtain ⟨t1, t2, t3, t4, t5, t6⟩ := toggleTurn_desktop_step _ i1 i2 i3 i4
    refine ⟨t1, t2, t3, t4, ?_, by rw [t6, i6]⟩
    rw [t5, i5, parity_succ_flip, xor_not_flip]

/-- On a committed controlled desktop provider whose owner echoes changes
back, one toggle-and-echo turn negates the controlled value and recommits. -/
lemma toggleEchoTurn_controlled_step (s : SidebarState)
    (hm : s.isMobile = false) (hc : s.hasOnOpenChange = true) :
    (toggleEchoTurn s).isMobile = false ∧
    (toggleEchoTurn s).hasOnOpenChange = true ∧
    (toggleEchoTurn s).openProp = some (toggleEchoTurn s).capturedOpen ∧
    (toggleEchoTurn s).capturedOpen = !s.capturedOpen ∧
    (toggleEchoTurn s).internalOpen = s.internalOpen ∧
    (toggleEchoTurn s).openMobile = s.openMobile := by
  simp [toggleEchoTurn, toggleSidebar, hm, setOpen, resolveSetOpen, hc,
    echoOwner, List.getLast?_concat, updateControlledProp, rerender, openValue]

/-- Iterated toggle-and-echo turns on a committed controlled desktop provider
follow the parity of the number of toggles on the controlled value. -/
lemma toggleEchoTurn_iter_controlled (s : SidebarState)
    (hm : s.isMobile = false) (hc : s.hasOnOpenChange = true)
    (hp : s.openProp = some s.capturedOpen) (n : Nat) :
    (toggleEchoTurn^[n] s).isMobile = false ∧
    (toggleEchoTurn^[n] s).hasOnOpenChange = true ∧
    (toggleEchoTurn^[n] s).openProp = some (toggleEchoTurn^[n] s).capturedOpen ∧
    (toggleEchoTurn^[n] s).capturedOpen = Bool.xor s.capturedOpen (n % 2 == 1) := by
  induction n with
  | zero => simp [hm, hc, hp]
  | succ n ih =>
    obtain ⟨i1, i2, i3, i4⟩ := ih
    rw [Function.iterate_succ_apply']
    obtain ⟨t1, t2, t3, t4, t5, t6⟩ := toggleEchoTurn_controlled_step _ i1 i2
    refine ⟨t1, t2, t3, ?_⟩
    rw [t4, i4, parity_succ_flip, xor_not_flip]

/-- C5: for every initial value of the authoritative slot and every n, a
sequence of n `toggleSidebar` calls (each in its own event turn) leaves the
authoritative slot at the initial value XOR (n mod 2 == 1).  Covered in all
three configurations in which the slot has a well-defined owner: uncontrolled
desktop, mobile under either ownership, and controlled desktop with an
external owner that feeds each `onOpenChange` value back. -/
theorem c5_toggle_parity (n : Nat) (b mob c cap h : Bool) (op : Option Bool)
    (log cw : List Bool) (ck : Option Bool) :
    authoritativeOpen (toggleTurn^[n]
        { hasOnOpenChange := false, openProp := none, internalOpen := b,
          openMobile := mob, isMobile := false, capturedOpen := b,
          onChangeCalls := log, cookie := ck, cookieWrites := cw }) =
      Bool.xor b (n % 2 == 1) ∧
    authoritativeOpen (toggleTurn^[n]
        { hasOnOpenChange := h, openProp := op, internalOpen := b,
          openMobile := mob, isMobile := true, capturedOpen := cap,
          onChangeCalls := log, cookie := ck, cookieWrites := cw }) =
      Bool.xor mob (n % 2 == 1) ∧
    authoritativeOpen (toggleEchoTurn^[n]
        { hasOnOpenChange := true, openProp := some c, internalOpen := b,
          openMobile := mob, isMobile := false, capturedOpen := c,
          onChangeCalls := log, cookie := ck, cookieWrites := cw }) =
      Bool.xor c (n % 2 == 1) := by
  refine ⟨?_, ?_, ?_⟩
  · obtain ⟨i1, i2, i3, i4, i5, i6⟩ := toggleTurn_iter_desktop
      { hasOnOpenChange := false, openProp := none, internalOpen := b,
        openMobile := mob, isMobile := false, capturedOpen := b,
        onChangeCalls := log, cookie := ck, cookieWrites := cw }
      rfl rfl rfl rfl n
    simp [authoritativeOpen, i1, openValue, i3, i5]
  · obtain ⟨i1, i2, i3, i4, i5, i6, i7⟩ := toggleTurn_iter_mobile
      { hasOnOpenChange := h, openProp := op, internalOpen := b,
        openMobile := mob, isMobile := true, capturedOpen := cap,
        onChangeCalls := log, cookie := ck, cookieWrites := cw }
      rfl n
    simp [authoritativeOpen, i4, i7]
  · obtain ⟨i1, i2, i3, i4⟩ := toggleEchoTurn_iter_controlled
      { hasOnOpenChange := true, openProp := some c, internalOpen := b,
        openMobile := mob, isMobile := false, capturedOpen := c,
        onChangeCalls := log, cookie := ck, cookieWrites := cw }
      rfl rfl rfl n
    simp [authoritativeOpen, i1, openValue, i3, i4]

/-- Applying a provider operation never changes the mobile flag. -/
lemma setOpen_isMobile (v : SetOpenValue) (s : SidebarState) :
    (setOpen v s).isMobile = s.isMobile := by
  unfold setOpen
  cases hh : s.hasOnOpenChange <;> simp [hh]

/-- A `setOpen` call appends exactly one persistence write, carrying the
resolved value. -/
lemma setOpen_cookieWrites (v : SetOpenValue) (s : SidebarState) :
    (setOpen v s).cookieWrites =
      s.cookieWrites ++ [resolveSetOpen v s.capturedOpen] := by
  unfold setOpen
  cases hh : s.hasOnOpenChange <;> simp [hh]

/-- Every provider operation preserves the mobile flag. -/
lemma applyCall_isMobile (op : CallOp) (s : SidebarState) :
    (applyCall op s).isMobile = s.isMobile := by
  cases op with
  | callSetOpen v => exact setOpen_isMobile v s
  | callSetOpenMobile f => rfl
  | callToggle =>
    unfold applyCall toggleSidebar
    cases hm : s.isMobile
    · simp [hm, setOpen_isMobile]
    · simp [hm, setOpenMobile]
  | commit => rfl

/-- The persistence-write log grows by exactly the per-operation count. -/
lemma applyCall_cookieWrites_length (op : CallOp) (s : SidebarState) :
    (applyCall op s).cookieWrites.length =
      s.cookieWrites.length + writeCount s.isMobile [op] := by
  cases op with
  | callSetOpen v => simp [applyCall, setOpen_cookieWrites, writeCount]
  | callSetOpenMobile f => simp [applyCall, setOpenMobile, writeCount]
  | callToggle =>
    unfold applyCall toggleSidebar
    cases hm : s.isMobile
    · simp [hm, setOpen_cookieWrites, writeCount]
    · simp [hm, setOpenMobile, writeCount]
  | commit => simp [applyCall, rerender, writeCount]

/-- Over a whole sequence of operations, the number of persistence writes is
exactly one per `setOpen` call plus one per desktop `toggleSidebar` call. -/
lemma runCalls_cookieWrites_length (ops : List CallOp) (s : SidebarState) :
    (runCalls ops s).cookieWrites.length =
      s.cookieWrites.length + writeCount s.isMobile ops := by
  induction ops generalizing s with
  | nil => simp [runCalls, writeCount]
  | cons op rest ih =>
    rw [runCalls, ih, applyCall_isMobile, applyCall_cookieWrites_length]
    cases op <;> simp [writeCount] <;> omega

/-- C7: every `setOpen` call performs exactly one persistence write of the
resolved value (and in uncontrolled ownership that value is what the desktop
slot is set to); mutations of `openMobile` — the raw mobile setter and
`toggleSidebar` on mobile — never write; and over every sequence of
setOpen/toggle/mobile-set/commit operations, in either ownership mode, the
write log grows by exactly one entry per desktop-slot mutation. -/
theorem c7_persistence_writes (v : SetOpenValue) (f : Bool → Bool)
    (s : SidebarState) (ops : List CallOp) :
    (setOpen v s).cookieWrites =
      s.cookieWrites ++ [resolveSetOpen v s.capturedOpen] ∧
    (setOpen v { s with hasOnOpenChange := false }).internalOpen =
      resolveSetOpen v s.capturedOpen ∧
    (setOpenMobile f s).cookieWrites = s.cookieWrites ∧
    (toggleSidebar { s with isMobile := true }).cookieWrites = s.cookieWrites ∧
    (runCalls ops s).cookieWrites.length =
      s.cookieWrites.length + writeCount s.isMobile ops := by
  refine ⟨setOpen_cookieWrites v s, ?_, rfl, ?_, runCalls_cookieWrites_length ops s⟩
  · simp [setOpen, resolveSetOpen]
  · simp [toggleSidebar, setOpenMobile]

/-- C8: switching the compact flag on mid-session (with the commit that
follows) leaves the stored desktop open value — internal slot, controlled
prop, cookie and write log — unchanged, and every subsequent sequence of
`toggleSidebar` turns while compact mutates only `openMobile`, which follows
the parity of the number of toggles. -/
theorem c8_compact_switch_inert_desktop (s : SidebarState) (n : Nat) :
    (toggleTurn^[n] (rerender { s with isMobile := true })).internalOpen =
      s.internalOpen ∧
    (toggleTurn^[n] (rerender { s with isMobile := true })).openProp =
      s.openProp ∧
    (toggleTurn^[n] (rerender { s with isMobile := true })).cookie = s.cookie ∧
    (toggleTurn^[n] (rerender { s with isMobile := true })).cookieWrites =
      s.cookieWrites ∧
    (toggleTurn^[n] (rerender { s with isMobile := true })).openMobile =
      Bool.xor s.openMobile (n % 2 == 1) := by
  obtain ⟨i1, i2, i3, i4, i5, i6, i7⟩ :=
    toggleTurn_iter_mobile (rerender { s with isMobile := true }) rfl n
  refine ⟨?_, ?_, ?_, ?_, ?_⟩
  · rw [i3]; rfl
  · rw [i2]; rfl
  · rw [i5]; rfl
  · rw [i6]; rfl
  · rw [i7]; rfl
